import Mathlib

/-!
Verification of the `rentahuman` Python client library
(`src/rentahuman/client.py`, `src/rentahuman/async_client.py`,
`src/rentahuman/models.py`).

The development shallowly embeds the shared HTTP request executor / retry
policy, the path-parameter sanitizer, the query-parameter builders and the
pydantic entity models.  The remote server is modelled as a function
`world : Nat -> Outcome` giving, for each attempt index, the outcome the
HTTP library reports for the request issued on that attempt (either a
parsed response or a transport-level exception of the caught class).

Modelling conventions:
* JSON documents are the inductive `Json`; a response's raw content is the
  three-valued `Body`: empty content, content that is not decodable JSON
  (carrying the decode error's rendered message), or a decoded JSON object
  (matching the clients' `-> dict` annotations).  `resp.json()` on empty or
  undecodable content raises: `requests.exceptions.JSONDecodeError` is a
  `RequestException` and is caught and retried by the sync client, while
  the stdlib `json.JSONDecodeError` raised inside httpx is not an
  `httpx.HTTPError` and escapes the async client uncaught.
* Python `float(s)` on a string is modelled by `pyFloat?`, covering plain
  decimal literals with optional sign and fraction.  Python additionally
  accepts surrounding whitespace, exponents, underscores and inf/nan; no
  claim depends on those, and every string the theorems call unparseable
  is unparseable for Python as well.
* Rationals stand in for Python floats (all constants involved are exact
  binary/decimal values, so no rounding is observable in the claims).
* An exception escaping the retry loop uncaught (e.g. `ValueError` from
  `float`) is the `uncaught` result; `RentAHumanError` is `error`,
  `RateLimitError` is `rateLimitError`.
-/

/-- JSON values, as produced by `resp.json()`. -/
inductive Json where
  | str (s : String)
  | num (q : ℚ)
  | bool (b : Bool)
  | null
  | arr (elems : List Json)
  | obj (fields : List (String × Json))

/-- A parsed JSON object (Python `dict`), the type both clients annotate
their `_request` as returning. -/
abbrev JsonObj := List (String × Json)

/-- Model of Python's `repr` on the strings used by the client's error
messages (no embedded quotes occur in any claim input). -/
def pyRepr (s : String) : String := "'" ++ s ++ "'"

/-- Digit list to natural number. -/
def digitsVal (cs : List Char) : Nat :=
  cs.foldl (fun a c => a * 10 + (c.toNat - 48)) 0

/-- Model of Python `float(s)` for plain decimal literals:
optional sign, then digits, an optional `.`, and optional fraction digits
(at least one digit overall).  Returns `none` when Python would raise
`ValueError`.  The value is assembled with integer arithmetic and `mkRat`
(exactly `sign * (intDigits.fracDigits)`). -/
def pyFloat? (s : String) : Option ℚ :=
  let cs := s.toList
  let signed : Int × List Char :=
    match cs with
    | '-' :: rest => (-1, rest)
    | '+' :: rest => (1, rest)
    | _ => (1, cs)
  let intPart := signed.2.takeWhile Char.isDigit
  let rest := signed.2.dropWhile Char.isDigit
  match rest with
  | [] =>
    if intPart.isEmpty then none
    else some (mkRat (signed.1 * digitsVal intPart) 1)
  | '.' :: frac =>
    if frac.all Char.isDigit && !(intPart.isEmpty && frac.isEmpty) then
      some (mkRat
        (signed.1 * (digitsVal intPart * 10 ^ frac.length + digitsVal frac))
        (10 ^ frac.length))
    else none
  | _ => none

/-- The `ValueError` message raised by Python's `float` builtin. -/
def floatErrMsg (s : String) : String :=
  "could not convert string to float: " ++ pyRepr s

/-- `sub.isPrefixOf` at some position of the list: Python's substring
containment (`sub in s`) on character lists. -/
def listHasSub (sub : List Char) : List Char → Bool
  | [] => sub.isEmpty
  | c :: cs => sub.isPrefixOf (c :: cs) || listHasSub sub cs

/-- Python `sub in s` for strings. -/
def strContains (s sub : String) : Bool :=
  listHasSub sub.toList s.toList

/-- The condition under which `_sanitize_path_param` rejects a value:
`not value or "/" in value or "\\" in value or ".." in value`. -/
def invalidParam (value : String) : Bool :=
  value == "" || strContains value "/" || strContains value "\\" ||
    strContains value ".."

/-- The message of the `JSONDecodeError` raised by decoding empty content
(`json.loads` of `b""`), as rendered by both `requests` and the stdlib. -/
def emptyJsonErr : String := "Expecting value: line 1 column 1 (char 0)"

/-- The raw content of an HTTP response, as `resp.json()` sees it:
empty content (falsy `resp.content`; decoding it raises), content that is
not valid JSON (decoding raises, with the given rendered message), or a
decoded JSON object. -/
inductive Body where
  | noContent
  | malformed (msg : String)
  | json (o : JsonObj)

/-- `body = resp.json() if resp.content else {}`, the error-branch decode:
empty content yields `{}`, undecodable content raises (`none`). -/
def Body.decoded? : Body → Option JsonObj
  | .noContent => some []
  | .malformed _ => none
  | .json o => some o

/-- One HTTP response as seen by the client: status code, the raw
`Retry-After` header if present, the reason phrase (`""` models both an
empty and an absent phrase, which the code treats alike via `or`), and the
raw body content. -/
structure HttpResponse where
  status : Nat
  retryAfterHeader : Option String
  reason : String
  body : Body

/-- What one attempt's HTTP call produces: a response, or an exception of
the class the retry loop catches (`requests.RequestException` in the sync
client, `httpx.HTTPError` in the async one), carrying its rendered
message. -/
inductive Outcome where
  | resp (r : HttpResponse)
  | transErr (msg : String)

/-- The final outcome of `_request`. -/
inductive ReqResult where
  | ok (body : JsonObj)
  | error (message : Json) (statusCode : Option Nat)
  | rateLimitError (retryAfter : ℚ)
  | uncaught (message : String)

/-- The observable behaviour of one `_request` call: its result, the number
of HTTP requests issued, and the list of sleep durations (in seconds), in
order. -/
structure ExecTrace where
  result : ReqResult
  requests : Nat
  waits : List ℚ

/-- `retry_after = float(resp.headers.get("Retry-After", 1.0))` in the sync
client: the parsed header value, or `1.0` when the header is absent;
`none` when the parse raises `ValueError`. -/
def retryAfterVal : Option String → Option ℚ
  | none => some 1
  | some s => pyFloat? s

/-- Whether an attempt outcome keeps the two clients' `resp.json()` calls
from raising: a transport failure or a 429 never parses a body, an error
response parses it only when content is present, and a success response
requires a decoded JSON object. -/
def decodeSafe : Outcome → Bool
  | .transErr _ => true
  | .resp r =>
    if r.status = 429 then true
    else if 400 ≤ r.status then
      match r.body with
      | .malformed _ => false
      | _ => true
    else
      match r.body with
      | .json _ => true
      | _ => false

namespace RentAHumanClient

/-- The body of `RentAHumanClient._request`'s `for attempt in
range(self.max_retries + 1)` loop, from `src/rentahuman/client.py`
lines 86-111.  `attempt` is the current index, the second `Nat` the number
of loop iterations left; the base case is the `raise` after the loop.
A `resp.json()` decode failure raises `requests.JSONDecodeError`, a
`RequestException`, so it takes the same except-clause path as a transport
failure: linear backoff while attempts remain, else the wrapped error. -/
def requestGo (maxRetries : Nat) (world : Nat → Outcome) :
    Nat → Nat → ExecTrace
  | _, 0 =>
    ⟨.error (.str ("Request failed after " ++ toString maxRetries ++ " retries"))
      none, 0, []⟩
  | attempt, rem + 1 =>
    match world attempt with
    | .transErr e =>
      if attempt < maxRetries then
        let t := requestGo maxRetries world (attempt + 1) rem
        ⟨t.result, t.requests + 1, mkRat (attempt + 1) 2 :: t.waits⟩
      else
        ⟨.error (.str ("Request failed: " ++ e)) none, 1, []⟩
    | .resp r =>
      if r.status = 429 then
        match r.retryAfterHeader with
        | none =>
          if attempt < maxRetries then
            let t := requestGo maxRetries world (attempt + 1) rem
            ⟨t.result, t.requests + 1, (1 : ℚ) :: t.waits⟩
          else
            ⟨.rateLimitError 1, 1, []⟩
        | some s =>
          match pyFloat? s with
          | none => ⟨.uncaught (floatErrMsg s), 1, []⟩
          | some q =>
            if attempt < maxRetries then
              let t := requestGo maxRetries world (attempt + 1) rem
              ⟨t.result, t.requests + 1, q :: t.waits⟩
            else
              ⟨.rateLimitError q, 1, []⟩
      else if 400 ≤ r.status then
        match r.body with
        | .malformed msg =>
          if attempt < maxRetries then
            let t := requestGo maxRetries world (attempt + 1) rem
            ⟨t.result, t.requests + 1, mkRat (attempt + 1) 2 :: t.waits⟩
          else
            ⟨.error (.str ("Request failed: " ++ msg)) none, 1, []⟩
        | .noContent =>
          ⟨.error (.str (if r.reason = "" then "HTTP " ++ toString r.status
                         else r.reason)) (some r.status), 1, []⟩
        | .json o =>
          ⟨.error ((o.lookup "error").getD
              (.str (if r.reason = "" then "HTTP " ++ toString r.status
                     else r.reason))) (some r.status), 1, []⟩
      else
        match r.body with
        | .json o => ⟨.ok o, 1, []⟩
        | .noContent =>
          if attempt < maxRetries then
            let t := requestGo maxRetries world (attempt + 1) rem
            ⟨t.result, t.requests + 1, mkRat (attempt + 1) 2 :: t.waits⟩
          else
            ⟨.error (.str ("Request failed: " ++ emptyJsonErr)) none, 1, []⟩
        | .malformed msg =>
          if attempt < maxRetries then
            let t := requestGo maxRetries world (attempt + 1) rem
            ⟨t.result, t.requests + 1, mkRat (attempt + 1) 2 :: t.waits⟩
          else
            ⟨.error (.str ("Request failed: " ++ msg)) none, 1, []⟩

/-- `RentAHumanClient._request`: run the retry loop from attempt 0 with
`max_retries + 1` iterations available. -/
def request (maxRetries : Nat) (world : Nat → Outcome) : ExecTrace :=
  requestGo maxRetries world 0 (maxRetries + 1)

end RentAHumanClient

namespace AsyncRentAHumanClient

/-- The body of `AsyncRentAHumanClient._request`'s loop, from
`src/rentahuman/async_client.py` lines 90-115.  Textually this differs
from the sync client only in the `Retry-After` default, written as the
string `"1.0"` and fed through `float` together with a present header —
but a `resp.json()` decode failure here is the stdlib
`json.JSONDecodeError`, which is not an `httpx.HTTPError`: it escapes the
loop uncaught instead of being retried. -/
def requestGo (maxRetries : Nat) (world : Nat → Outcome) :
    Nat → Nat → ExecTrace
  | _, 0 =>
    ⟨.error (.str ("Request failed after " ++ toString maxRetries ++ " retries"))
      none, 0, []⟩
  | attempt, rem + 1 =>
    match world attempt with
    | .transErr e =>
      if attempt < maxRetries then
        let t := requestGo maxRetries world (attempt + 1) rem
        ⟨t.result, t.requests + 1, mkRat (attempt + 1) 2 :: t.waits⟩
      else
        ⟨.error (.str ("Request failed: " ++ e)) none, 1, []⟩
    | .resp r =>
      if r.status = 429 then
        match pyFloat? (r.retryAfterHeader.getD "1.0") with
        | none => ⟨.uncaught (floatErrMsg (r.retryAfterHeader.getD "1.0")), 1, []⟩
        | some q =>
          if attempt < maxRetries then
            let t := requestGo maxRetries world (attempt + 1) rem
            ⟨t.result, t.requests + 1, q :: t.waits⟩
          else
            ⟨.rateLimitError q, 1, []⟩
      else if 400 ≤ r.status then
        match r.body with
        | .malformed msg => ⟨.uncaught msg, 1, []⟩
        | .noContent =>
          ⟨.error (.str (if r.reason = "" then "HTTP " ++ toString r.status
                         else r.reason)) (some r.status), 1, []⟩
        | .json o =>
          ⟨.error ((o.lookup "error").getD
              (.str (if r.reason = "" then "HTTP " ++ toString r.status
                     else r.reason))) (some r.status), 1, []⟩
      else
        match r.body with
        | .json o => ⟨.ok o, 1, []⟩
        | .noContent => ⟨.uncaught emptyJsonErr, 1, []⟩
        | .malformed msg => ⟨.uncaught msg, 1, []⟩

/-- `AsyncRentAHumanClient._request`. -/
def request (maxRetries : Nat) (world : Nat → Outcome) : ExecTrace :=
  requestGo maxRetries world 0 (maxRetries + 1)

end AsyncRentAHumanClient

/-! ## Entity models (`src/rentahuman/models.py`)

Each pydantic model is embedded as a static list of field descriptors
(internal name, wire alias, default, value shape), applied uniformly by
`modelValidateObj` (= `Model.model_validate` on a mapping, with
`populate_by_name = True`) and `modelDumpByAlias`
(= `model_dump(by_alias=True)`).  A validated entity is the association
list from internal field names to the accepted raw JSON values; pydantic's
lax-mode value coercions (e.g. numeric strings to floats) and the
re-wrapping of nested models are not modelled — field values are kept as
the raw JSON accepted by the shape check, which is what every claim about
keys and envelopes observes. -/

/-- Python truthiness of a JSON value. -/
def truthy : Json → Bool
  | .str s => !(s == "")
  | .num q => !(q == 0)
  | .bool b => b
  | .null => false
  | .arr xs => !xs.isEmpty
  | .obj kvs => !kvs.isEmpty

/-- Python iteration (`for x in v`): lists yield elements, dicts yield
their keys, strings yield their characters; other values raise
`TypeError` (`none`). -/
def pyIterate : Json → Option (List Json)
  | .arr xs => some xs
  | .obj kvs => some (kvs.map (fun kv => Json.str kv.1))
  | .str s => some (s.toList.map (fun c => Json.str (String.singleton c)))
  | _ => none

/-- Python `v[0]`: `none` models an exception (`KeyError` on a dict,
`TypeError` on numbers and `None`). -/
def subscript0 : Json → Option Json
  | .arr (x :: _) => some x
  | .str s => s.toList.head?.map (fun c => Json.str (String.singleton c))
  | _ => none

/-- Lookup a key, falling back to a second key. -/
def lookup2 (kvs : JsonObj) (key altKey : String) : Option Json :=
  match kvs.lookup key with
  | some v => some v
  | none => kvs.lookup altKey

/-- A `str`-typed pydantic field with a default: absent or a string. -/
def okStrOpt : Option Json → Bool
  | none => true
  | some (.str _) => true
  | some _ => false

/-- A `str | None` pydantic field with a default. -/
def okNullableStrOpt : Option Json → Bool
  | none => true
  | some (.str _) => true
  | some .null => true
  | some _ => false

/-- Shape of a `CryptoWallet` payload (`chain: str = ""`,
`address: str = ""`). -/
def walletOk : Json → Bool
  | .obj kvs => okStrOpt (kvs.lookup "chain") && okStrOpt (kvs.lookup "address")
  | _ => false

/-- Shape of a `Message` payload (`id`, `conversation_id` aliased
`conversationId`, `sender`, `content`, optional `created_at` aliased
`createdAt`). -/
def messageOk : Json → Bool
  | .obj kvs =>
    okStrOpt (kvs.lookup "id") &&
    okStrOpt (lookup2 kvs "conversationId" "conversation_id") &&
    okStrOpt (kvs.lookup "sender") &&
    okStrOpt (kvs.lookup "content") &&
    okNullableStrOpt (lookup2 kvs "createdAt" "created_at")
  | _ => false

/-- The value shape a field accepts (pydantic type annotations). -/
inductive FieldKind where
  | str
  | optStr
  | num
  | optNum
  | intLike
  | optInt
  | listStr
  | listWallet
  | listMessage

/-- Whether a JSON value fits a field's annotated shape. -/
def checkKind : FieldKind → Json → Bool
  | .str, .str _ => true
  | .str, _ => false
  | .optStr, .str _ => true
  | .optStr, .null => true
  | .optStr, _ => false
  | .num, .num _ => true
  | .num, _ => false
  | .optNum, .num _ => true
  | .optNum, .null => true
  | .optNum, _ => false
  | .intLike, .num q => q.den == 1
  | .intLike, _ => false
  | .optInt, .num q => q.den == 1
  | .optInt, .null => true
  | .optInt, _ => false
  | .listStr, .arr xs => xs.all fun j => match j with | .str _ => true | _ => false
  | .listStr, _ => false
  | .listWallet, .arr xs => xs.all walletOk
  | .listWallet, _ => false
  | .listMessage, .arr xs => xs.all messageOk
  | .listMessage, _ => false

/-- One declared pydantic field: internal name, wire alias (equal to the
name when the source declares no alias), default value (`none` =
required), and annotated shape. -/
structure ModelField where
  name : String
  wireAlias : String
  dflt : Option Json
  kind : FieldKind

/-- `Human` (models.py lines 25-39). -/
def humanFields : List ModelField :=
  [⟨"id", "id", some (.str ""), .str⟩,
   ⟨"name", "name", some (.str ""), .str⟩,
   ⟨"location", "location", some .null, .optStr⟩,
   ⟨"rate", "rate", some .null, .optNum⟩,
   ⟨"skills", "skills", some (.arr []), .listStr⟩,
   ⟨"bio", "bio", some .null, .optStr⟩,
   ⟨"availability", "availability", some .null, .optStr⟩,
   ⟨"crypto_wallets", "cryptoWallets", some (.arr []), .listWallet⟩,
   ⟨"rating", "rating", some .null, .optNum⟩,
   ⟨"completed_tasks", "completedTasks", some .null, .optInt⟩,
   ⟨"created_at", "createdAt", some .null, .optStr⟩]

/-- `Skill` (models.py lines 19-22). -/
def skillFields : List ModelField :=
  [⟨"name", "name", none, .str⟩,
   ⟨"category", "category", some .null, .optStr⟩]

/-- `CryptoWallet` (models.py lines 13-16). -/
def cryptoWalletFields : List ModelField :=
  [⟨"chain", "chain", some (.str ""), .str⟩,
   ⟨"address", "address", some (.str ""), .str⟩]

/-- `BookingCreate` (models.py lines 57-66). -/
def bookingCreateFields : List ModelField :=
  [⟨"human_id", "humanId", none, .str⟩,
   ⟨"agent_id", "agentId", some (.str "rentahuman-py"), .str⟩,
   ⟨"task_title", "taskTitle", none, .str⟩,
   ⟨"start_time", "startTime", none, .str⟩,
   ⟨"estimated_hours", "estimatedHours", none, .num⟩,
   ⟨"description", "description", some .null, .optStr⟩]

/-- `Booking` (models.py lines 69-80). -/
def bookingFields : List ModelField :=
  [⟨"id", "id", some (.str ""), .str⟩,
   ⟨"human_id", "humanId", some (.str ""), .str⟩,
   ⟨"agent_id", "agentId", some (.str ""), .str⟩,
   ⟨"task_title", "taskTitle", some (.str ""), .str⟩,
   ⟨"status", "status", some (.str "pending"), .str⟩,
   ⟨"start_time", "startTime", some .null, .optStr⟩,
   ⟨"estimated_hours", "estimatedHours", some .null, .optNum⟩,
   ⟨"created_at", "createdAt", some .null, .optStr⟩]

/-- `BountyCreate` (models.py lines 85-96). -/
def bountyCreateFields : List ModelField :=
  [⟨"agent_type", "agentType", some (.str "rentahuman-py"), .str⟩,
   ⟨"title", "title", none, .str⟩,
   ⟨"description", "description", none, .str⟩,
   ⟨"estimated_hours", "estimatedHours", some .null, .optNum⟩,
   ⟨"price_type", "priceType", some (.str "fixed"), .str⟩,
   ⟨"price", "price", some (.num 0), .num⟩,
   ⟨"skills", "skills", some (.arr []), .listStr⟩,
   ⟨"location", "location", some .null, .optStr⟩]

/-- `BountyApplication` (models.py lines 99-110). -/
def bountyApplicationFields : List ModelField :=
  [⟨"id", "id", some (.str ""), .str⟩,
   ⟨"bounty_id", "bountyId", some (.str ""), .str⟩,
   ⟨"human_id", "humanId", some (.str ""), .str⟩,
   ⟨"human_name", "humanName", some (.str ""), .str⟩,
   ⟨"message", "message", some (.str ""), .str⟩,
   ⟨"rate", "rate", some .null, .optNum⟩,
   ⟨"status", "status", some (.str "pending"), .str⟩,
   ⟨"created_at", "createdAt", some .null, .optStr⟩]

/-- `Bounty` (models.py lines 113-126). -/
def bountyFields : List ModelField :=
  [⟨"id", "id", some (.str ""), .str⟩,
   ⟨"title", "title", some (.str ""), .str⟩,
   ⟨"description", "description", some (.str ""), .str⟩,
   ⟨"agent_type", "agentType", some (.str ""), .str⟩,
   ⟨"estimated_hours", "estimatedHours", some .null, .optNum⟩,
   ⟨"price_type", "priceType", some (.str "fixed"), .str⟩,
   ⟨"price", "price", some (.num 0), .num⟩,
   ⟨"status", "status", some (.str "open"), .str⟩,
   ⟨"application_count", "applicationCount", some (.num 0), .intLike⟩,
   ⟨"created_at", "createdAt", some .null, .optStr⟩]

/-- `Message` (models.py lines 131-139). -/
def messageFields : List ModelField :=
  [⟨"id", "id", some (.str ""), .str⟩,
   ⟨"conversation_id", "conversationId", some (.str ""), .str⟩,
   ⟨"sender", "sender", some (.str ""), .str⟩,
   ⟨"content", "content", some (.str ""), .str⟩,
   ⟨"created_at", "createdAt", some .null, .optStr⟩]

/-- `Conversation` (models.py lines 142-151). -/
def conversationFields : List ModelField :=
  [⟨"id", "id", some (.str ""), .str⟩,
   ⟨"human_id", "humanId", some (.str ""), .str⟩,
   ⟨"agent_type", "agentType", some (.str ""), .str⟩,
   ⟨"subject", "subject", some (.str ""), .str⟩,
   ⟨"messages", "messages", some (.arr []), .listMessage⟩,
   ⟨"created_at", "createdAt", some .null, .optStr⟩]

/-- All entity models of `models.py`. -/
def entityFieldTables : List (List ModelField) :=
  [humanFields, skillFields, cryptoWalletFields, bookingCreateFields,
   bookingFields, bountyCreateFields, bountyApplicationFields, bountyFields,
   messageFields, conversationFields]

/-- Pydantic's lookup for one field: the wire alias is consulted first,
then (because every model sets `populate_by_name = True`) the internal
field name. -/
def lookupWithAlias (kvs : JsonObj) (f : ModelField) : Option Json :=
  match kvs.lookup f.wireAlias with
  | some v => some v
  | none => kvs.lookup f.name

/-- Validate one field of a mapping payload: an ill-shaped present value
or a missing required field fails (pydantic `ValidationError`). -/
def validateField (kvs : JsonObj) (f : ModelField) : Option (String × Json) :=
  match lookupWithAlias kvs f with
  | some v => if checkKind f.kind v then some (f.name, v) else none
  | none =>
    match f.dflt with
    | some d => some (f.name, d)
    | none => none

/-- Left-to-right effectful map over `Option`: the first failure aborts,
as a Python list comprehension aborts at the first raised exception. -/
def optMapM {α β : Type} (g : α → Option β) : List α → Option (List β)
  | [] => some []
  | a :: l =>
    match g a with
    | none => none
    | some b =>
      match optMapM g l with
      | none => none
      | some bs => some (b :: bs)

/-- `Model.model_validate` on a mapping: every declared field in order;
unknown payload keys are ignored. -/
def modelValidateObj (fields : List ModelField) (kvs : JsonObj) :
    Option JsonObj :=
  optMapM (validateField kvs) fields

/-- `Model.model_validate` on an arbitrary JSON value: non-mapping input
is a `ValidationError`. -/
def modelValidate (fields : List ModelField) : Json → Option JsonObj
  | .obj kvs => modelValidateObj fields kvs
  | _ => none

/-- `model_dump(by_alias=True)`: every declared field, keyed by its wire
alias, in declaration order. -/
def modelDumpByAlias (fields : List ModelField) (entity : JsonObj) : JsonObj :=
  fields.map fun f => (f.wireAlias, (entity.lookup f.name).getD .null)

/-- `Skill(name=s)`: keyword construction with `category` defaulted. -/
def skillOfName (s : String) : JsonObj :=
  [("name", .str s), ("category", .null)]

/-! ## Resource operations

Each operation sanitizes its path parameters, issues one logical request
through the executor, and parses the enveloped response.  An operation's
observable behaviour is its result together with the number of HTTP
requests issued. -/

/-- The outcome of a resource operation. -/
inductive OpResult (α : Type) where
  | ok (a : α)
  | error (message : Json) (statusCode : Option Nat)
  | rateLimitError (retryAfter : ℚ)
  | invalid
  | uncaught (message : String)

/-- A pydantic construction outcome as an operation result
(`none` = `ValidationError` raised). -/
def parsedOp {α : Type} : Option α → OpResult α
  | some a => .ok a
  | none => .invalid

/-- Run the executor and parse a successful body. -/
def opOfTrace {α : Type} (parse : JsonObj → OpResult α) (t : ExecTrace) :
    OpResult α × Nat :=
  (match t.result with
   | .ok b => parse b
   | .error m c => .error m c
   | .rateLimitError q => .rateLimitError q
   | .uncaught m => .uncaught m, t.requests)

/-- An optional string query parameter, included only when truthy
(`if x: params[key] = x`). -/
def optStrParam (key : String) : Option String → JsonObj
  | some s => if s = "" then [] else [(key, Json.str s)]
  | none => []

/-- An optional numeric query parameter, included when not `None`
(`if x is not None: params[key] = x`). -/
def optNumParam (key : String) : Option ℚ → JsonObj
  | some q => [(key, Json.num q)]
  | none => []

/-- `raw = data.get("skills", data)` followed by the shape dispatch of
`list_skills` (identical in both clients): a truthy value whose first
element is a string is mapped through `Skill(name=s)`, anything else is
mapped through `Skill.model_validate`. -/
def listSkillsParse (data : JsonObj) : OpResult (List JsonObj) :=
  let raw := (data.lookup "skills").getD (.obj data)
  if truthy raw then
    match subscript0 raw with
    | none => .uncaught "raw[0] raised"
    | some first =>
      match first with
      | .str _ =>
        match pyIterate raw with
        | none => .uncaught "TypeError"
        | some items =>
          parsedOp (optMapM (fun j =>
            match j with
            | .str s => some (skillOfName s)
            | _ => none) items)
      | _ =>
        match pyIterate raw with
        | none => .uncaught "TypeError"
        | some items => parsedOp (optMapM (modelValidate skillFields) items)
  else
    match pyIterate raw with
    | none => .uncaught "TypeError"
    | some items => parsedOp (optMapM (modelValidate skillFields) items)

namespace RentAHumanClient

/-- `RentAHumanClient._sanitize_path_param` (client.py lines 73-78). -/
def sanitizePathParam (value : String) : Except Json String :=
  if invalidParam value then
    .error (.str ("Invalid path parameter: " ++ pyRepr value))
  else
    .ok value

/-- The query dict built by `search_humans` (client.py lines 146-154):
`limit` is clamped with `max(1, min(limit, 500))`, `offset` with
`max(0, offset)`, and the optional filters are appended only when set. -/
def searchHumansParams (skill : Option String) (minRate maxRate : Option ℚ)
    (name : Option String) (limit offset : Int) : JsonObj :=
  [("limit", Json.num ((max 1 (min limit 500) : Int) : ℚ)),
   ("offset", Json.num ((max 0 offset : Int) : ℚ))]
    ++ optStrParam "skill" skill
    ++ optNumParam "minRate" minRate
    ++ optNumParam "maxRate" maxRate
    ++ optStrParam "name" name

/-- The query dict built by `list_bookings` (client.py lines 225-231). -/
def listBookingsParams (humanId agentId status : Option String)
    (limit : Int) : JsonObj :=
  [("limit", Json.num (limit : ℚ))]
    ++ optStrParam "humanId" humanId
    ++ optStrParam "agentId" agentId
    ++ optStrParam "status" status

/-- The query dict sent by `list_bounties` (client.py line 258). -/
def listBountiesParams (limit : Int) : JsonObj :=
  [("limit", Json.num (limit : ℚ))]

/-- The query dict sent by `list_conversations` (client.py line 325). -/
def listConversationsParams (limit : Int) : JsonObj :=
  [("limit", Json.num (limit : ℚ))]

/-- `get_human` (client.py lines 159-170). -/
def getHuman (maxRetries : Nat) (humanId : String) (world : Nat → Outcome) :
    OpResult JsonObj × Nat :=
  match sanitizePathParam humanId with
  | .error m => (.error m none, 0)
  | .ok hid =>
    let _path := "/humans/" ++ hid
    opOfTrace
      (fun data => parsedOp (modelValidate humanFields
        ((data.lookup "human").getD (.obj data))))
      (request maxRetries world)

/-- `list_skills` (client.py lines 172-182). -/
def listSkills (maxRetries : Nat) (world : Nat → Outcome) :
    OpResult (List JsonObj) × Nat :=
  opOfTrace listSkillsParse (request maxRetries world)

/-- `get_reviews` (client.py lines 184-195). -/
def getReviews (maxRetries : Nat) (humanId : String) (world : Nat → Outcome) :
    OpResult Json × Nat :=
  match sanitizePathParam humanId with
  | .error m => (.error m none, 0)
  | .ok hid =>
    let _path := "/humans/" ++ hid ++ "/reviews"
    opOfTrace
      (fun data => .ok ((data.lookup "reviews").getD (.arr [])))
      (request maxRetries world)

/-- `get_booking` (client.py lines 211-215). -/
def getBooking (maxRetries : Nat) (bookingId : String) (world : Nat → Outcome) :
    OpResult JsonObj × Nat :=
  match sanitizePathParam bookingId with
  | .error m => (.error m none, 0)
  | .ok bid =>
    let _path := "/bookings/" ++ bid
    opOfTrace
      (fun data => parsedOp (modelValidate bookingFields
        ((data.lookup "booking").getD (.obj data))))
      (request maxRetries world)

/-- `get_bounty` (client.py lines 250-254). -/
def getBounty (maxRetries : Nat) (bountyId : String) (world : Nat → Outcome) :
    OpResult JsonObj × Nat :=
  match sanitizePathParam bountyId with
  | .error m => (.error m none, 0)
  | .ok bid =>
    let _path := "/bounties/" ++ bid
    opOfTrace
      (fun data => parsedOp (modelValidate bountyFields
        ((data.lookup "bounty").getD (.obj data))))
      (request maxRetries world)

/-- `get_bounty_applications` (client.py lines 261-265). -/
def getBountyApplications (maxRetries : Nat) (bountyId : String)
    (world : Nat → Outcome) : OpResult (List JsonObj) × Nat :=
  match sanitizePathParam bountyId with
  | .error m => (.error m none, 0)
  | .ok bid =>
    let _path := "/bounties/" ++ bid ++ "/applications"
    opOfTrace
      (fun data =>
        match pyIterate ((data.lookup "applications").getD (.arr [])) with
        | none => .uncaught "TypeError"
        | some items =>
          parsedOp (optMapM (modelValidate bountyApplicationFields) items))
      (request maxRetries world)

/-- `accept_application` (client.py lines 267-271): both ids are
sanitized, `bounty_id` first. -/
def acceptApplication (maxRetries : Nat) (bountyId applicationId : String)
    (world : Nat → Outcome) : OpResult JsonObj × Nat :=
  match sanitizePathParam bountyId with
  | .error m => (.error m none, 0)
  | .ok bid =>
    match sanitizePathParam applicationId with
    | .error m => (.error m none, 0)
    | .ok aid =>
      let _path := "/bounties/" ++ bid ++ "/applications/" ++ aid ++ "/accept"
      opOfTrace (fun data => .ok data) (request maxRetries world)

/-- `update_bounty` (client.py lines 273-277); the `updates` body does not
influence the client-side behaviour being modelled. -/
def updateBounty (maxRetries : Nat) (bountyId : String) (_updates : Json)
    (world : Nat → Outcome) : OpResult JsonObj × Nat :=
  match sanitizePathParam bountyId with
  | .error m => (.error m none, 0)
  | .ok bid =>
    let _path := "/bounties/" ++ bid
    opOfTrace
      (fun data => parsedOp (modelValidate bountyFields
        ((data.lookup "bounty").getD (.obj data))))
      (request maxRetries world)

/-- `send_message` (client.py lines 308-315). -/
def sendMessage (maxRetries : Nat) (conversationId : String)
    (_message : String) (world : Nat → Outcome) : OpResult JsonObj × Nat :=
  match sanitizePathParam conversationId with
  | .error m => (.error m none, 0)
  | .ok cid =>
    let _path := "/conversations/" ++ cid ++ "/messages"
    opOfTrace
      (fun data => parsedOp (modelValidate messageFields
        ((data.lookup "message").getD (.obj data))))
      (request maxRetries world)

/-- `get_conversation` (client.py lines 317-321). -/
def getConversation (maxRetries : Nat) (conversationId : String)
    (world : Nat → Outcome) : OpResult JsonObj × Nat :=
  match sanitizePathParam conversationId with
  | .error m => (.error m none, 0)
  | .ok cid =>
    let _path := "/conversations/" ++ cid
    opOfTrace
      (fun data => parsedOp (modelValidate conversationFields
        ((data.lookup "conversation").getD (.obj data))))
      (request maxRetries world)

end RentAHumanClient

namespace AsyncRentAHumanClient

/-- `AsyncRentAHumanClient._sanitize_path_param` (async_client.py lines
78-83), textually identical to the sync client's. -/
def sanitizePathParam (value : String) : Except Json String :=
  if invalidParam value then
    .error (.str ("Invalid path parameter: " ++ pyRepr value))
  else
    .ok value

/-- The query dict built by the async `search_humans` (async_client.py
lines 138-146). -/
def searchHumansParams (skill : Option String) (minRate maxRate : Option ℚ)
    (name : Option String) (limit offset : Int) : JsonObj :=
  [("limit", Json.num ((max 1 (min limit 500) : Int) : ℚ)),
   ("offset", Json.num ((max 0 offset : Int) : ℚ))]
    ++ optStrParam "skill" skill
    ++ optNumParam "minRate" minRate
    ++ optNumParam "maxRate" maxRate
    ++ optStrParam "name" name

/-- The query dict built by the async `list_bookings` (async_client.py
lines 194-200). -/
def listBookingsParams (humanId agentId status : Option String)
    (limit : Int) : JsonObj :=
  [("limit", Json.num (limit : ℚ))]
    ++ optStrParam "humanId" humanId
    ++ optStrParam "agentId" agentId
    ++ optStrParam "status" status

/-- The query dict sent by the async `list_bounties` (async_client.py
line 222). -/
def listBountiesParams (limit : Int) : JsonObj :=
  [("limit", Json.num (limit : ℚ))]

/-- The query dict sent by the async `list_conversations` (async_client.py
line 279). -/
def listConversationsParams (limit : Int) : JsonObj :=
  [("limit", Json.num (limit : ℚ))]

/-- The async `list_skills` (async_client.py lines 157-163): the same
envelope dispatch over the async executor. -/
def listSkills (maxRetries : Nat) (world : Nat → Outcome) :
    OpResult (List JsonObj) × Nat :=
  opOfTrace listSkillsParse (request maxRetries world)

end AsyncRentAHumanClient

/-- Discriminator: is this executor outcome a `RateLimitError`? -/
def ReqResult.isRateLimit : ReqResult → Bool
  | .rateLimitError _ => true
  | _ => false

/-! ## Concrete test servers -/

/-- A server that always answers 200 with the given JSON object body. -/
def okWorld (body : JsonObj) : Nat → Outcome :=
  fun _ => .resp ⟨200, none, "OK", .json body⟩

/-- A server that always answers 200 with empty content. -/
def emptyOkWorld : Nat → Outcome :=
  fun _ => .resp ⟨200, none, "OK", .noContent⟩

/-- A server that always answers 429 with the given `Retry-After`
header. -/
def rateLimitWorld (header : Option String) : Nat → Outcome :=
  fun _ => .resp ⟨429, header, "Too Many Requests", .noContent⟩

/-- A server to which every connection attempt fails with the given
transport error. -/
def downWorld (msg : String) : Nat → Outcome :=
  fun _ => .transErr msg

/-- A server that always answers 404 with a standard error body. -/
def notFoundWorld : Nat → Outcome :=
  fun _ => .resp ⟨404, none, "Not Found",
    .json [("success", .bool false), ("error", .str "Human not found")]⟩

/-- A full `Booking` wire payload keyed by the external (aliased) field
names. -/
def bookingWirePayload : JsonObj :=
  [("id", .str "booking_001"), ("humanId", .str "human_test_001"),
   ("agentId", .str "rentahuman-py"), ("taskTitle", .str "Pick up package"),
   ("status", .str "pending"), ("startTime", .str "2026-02-10T14:00:00Z"),
   ("estimatedHours", .num (mkRat 3 2)), ("createdAt", .null)]

/-- The same `Booking` payload keyed by the internal (non-aliased) field
names. -/
def bookingInternalPayload : JsonObj :=
  [("id", .str "booking_001"), ("human_id", .str "human_test_001"),
   ("agent_id", .str "rentahuman-py"), ("task_title", .str "Pick up package"),
   ("status", .str "pending"), ("start_time", .str "2026-02-10T14:00:00Z"),
   ("estimated_hours", .num (mkRat 3 2)), ("created_at", .null)]

/-! ## Helper lemmas -/

/-- `float("1.0")`, the async client's header default, is `1.0`. -/
theorem pyFloat_one : pyFloat? "1.0" = some 1 := rfl

/-- On decode-safe outcome sequences the two retry loops agree iteration
by iteration. -/
theorem requestGo_sync_async_eq (maxRetries : Nat) (world : Nat → Outcome)
    (hsafe : ∀ k, decodeSafe (world k) = true) :
    ∀ rem attempt,
      AsyncRentAHumanClient.requestGo maxRetries world attempt rem =
        RentAHumanClient.requestGo maxRetries world attempt rem := by
  intro rem
  induction rem with
  | zero => intro attempt; rfl
  | succ n ih =>
    intro attempt
    have hd := hsafe attempt
    simp only [RentAHumanClient.requestGo, AsyncRentAHumanClient.requestGo]
    cases hwa : world attempt with
    | transErr e => simp [ih]
    | resp r =>
      rw [hwa] at hd
      by_cases h429 : r.status = 429
      · simp only [h429, if_pos rfl]
        cases r.retryAfterHeader with
        | none =>
          simp only [Option.getD, pyFloat_one]
          simp [ih]
        | some s =>
          simp only [Option.getD]
          cases pyFloat? s <;> simp [ih]
      · by_cases h4 : 400 ≤ r.status
        · cases hb : r.body with
          | malformed msg =>
            exfalso
            simp [decodeSafe, h429, h4, hb] at hd
          | noContent => simp [h429, h4, hb]
          | json o => simp [h429, h4, hb]
        · cases hb : r.body with
          | json o => simp [h429, h4, hb]
          | noContent =>
            exfalso
            simp [decodeSafe, h429, h4, hb] at hd
          | malformed msg =>
            exfalso
            simp [decodeSafe, h429, h4, hb] at hd

/-- A `< 400` response with a decoded JSON object body returns it at
once. -/
theorem requestGo_success (maxRetries : Nat) (world : Nat → Outcome)
    (attempt rem : Nat) (r : HttpResponse) (o : JsonObj)
    (hw : world attempt = .resp r) (h429 : r.status ≠ 429)
    (hlt : r.status < 400) (hb : r.body = .json o) :
    RentAHumanClient.requestGo maxRetries world attempt (rem + 1) =
      ⟨.ok o, 1, []⟩ := by
  conv_lhs => rw [RentAHumanClient.requestGo]
  simp [hw, h429, Nat.not_le.mpr hlt, hb]

/-- The loop issues at most one request per remaining iteration. -/
theorem requestGo_requests_le (maxRetries : Nat) (world : Nat → Outcome) :
    ∀ rem attempt,
      (RentAHumanClient.requestGo maxRetries world attempt rem).requests ≤
        rem := by
  intro rem
  induction rem with
  | zero => intro attempt; exact Nat.le_refl 0 |>.trans (by simp)
  | succ n ih =>
    intro attempt
    simp only [RentAHumanClient.requestGo]
    cases world attempt with
    | transErr e =>
      by_cases h : attempt < maxRetries
      · simpa [h] using Nat.succ_le_succ (ih (attempt + 1))
      · simp [h]
    | resp r =>
      by_cases h429 : r.status = 429
      · simp only [h429, if_pos rfl]
        cases r.retryAfterHeader with
        | none =>
          by_cases h : attempt < maxRetries
          · simpa [h] using Nat.succ_le_succ (ih (attempt + 1))
          · simp [h]
        | some s =>
          cases hq : pyFloat? s with
          | none => simp [hq]
          | some q =>
            by_cases h : attempt < maxRetries
            · simpa [hq, h] using Nat.succ_le_succ (ih (attempt + 1))
            · simp [hq, h]
      · by_cases h4 : 400 ≤ r.status
        · cases hb : r.body with
          | malformed msg =>
            by_cases h : attempt < maxRetries
            · simpa [h429, h4, hb, h] using Nat.succ_le_succ (ih (attempt + 1))
            · simp [h429, h4, hb, h]
          | noContent => simp [h429, h4, hb]
          | json o => simp [h429, h4, hb]
        · cases hb : r.body with
          | json o => simp [h429, h4, hb]
          | noContent =>
            by_cases h : attempt < maxRetries
            · simpa [h429, h4, hb, h] using Nat.succ_le_succ (ih (attempt + 1))
            · simp [h429, h4, hb, h]
          | malformed msg =>
            by_cases h : attempt < maxRetries
            · simpa [h429, h4, hb, h] using Nat.succ_le_succ (ih (attempt + 1))
            · simp [h429, h4, hb, h]

/-- A run in which every attempt up to the retry budget fails at the
transport level: the full trace, by induction over the loop. -/
theorem requestGo_transport_all (maxRetries : Nat) (world : Nat → Outcome)
    (em : Nat → String)
    (hw : ∀ k, k ≤ maxRetries → world k = .transErr (em k)) :
    ∀ rem attempt, attempt + rem = maxRetries →
      RentAHumanClient.requestGo maxRetries world attempt (rem + 1) =
        ⟨.error (.str ("Request failed: " ++ em maxRetries)) none, rem + 1,
          (List.range' (attempt + 1) rem).map (fun k => mkRat k 2)⟩ := by
  intro rem
  induction rem with
  | zero =>
    intro attempt h
    have ha : attempt = maxRetries := by omega
    subst ha
    conv_lhs => rw [RentAHumanClient.requestGo]
    simp [hw attempt le_rfl, Nat.lt_irrefl]
  | succ n ih =>
    intro attempt h
    have hlt : attempt < maxRetries := by omega
    have hrec := ih (attempt + 1) (by omega)
    conv_lhs => rw [RentAHumanClient.requestGo]
    simp [hw attempt (by omega), hlt, hrec, List.range', Nat.cast_add,
      Nat.cast_one]

/-- A run in which every attempt up to the retry budget is rate limited
with an absent or parseable `Retry-After` header valued `hv k`: the full
trace, by induction over the loop. -/
theorem requestGo_rateLimited_all (maxRetries : Nat) (world : Nat → Outcome)
    (hv : Nat → ℚ)
    (hw : ∀ k, k ≤ maxRetries → ∃ r, world k = .resp r ∧ r.status = 429 ∧
      retryAfterVal r.retryAfterHeader = some (hv k)) :
    ∀ rem attempt, attempt + rem = maxRetries →
      RentAHumanClient.requestGo maxRetries world attempt (rem + 1) =
        ⟨.rateLimitError (hv maxRetries), rem + 1,
          (List.range' attempt rem).map hv⟩ := by
  intro rem
  induction rem with
  | zero =>
    intro attempt h
    have ha : attempt = maxRetries := by omega
    subst ha
    obtain ⟨r, hwa, h429, hval⟩ := hw attempt le_rfl
    cases hh : r.retryAfterHeader with
    | none =>
      rw [hh] at hval
      simp only [retryAfterVal, Option.some.injEq] at hval
      conv_lhs => rw [RentAHumanClient.requestGo]
      simp [hwa, h429, hh, Nat.lt_irrefl, hval]
    | some s =>
      rw [hh] at hval
      simp only [retryAfterVal] at hval
      conv_lhs => rw [RentAHumanClient.requestGo]
      simp [hwa, h429, hh, hval, Nat.lt_irrefl]
  | succ n ih =>
    intro attempt h
    have hlt : attempt < maxRetries := by omega
    have hrec := ih (attempt + 1) (by omega)
    obtain ⟨r, hwa, h429, hval⟩ := hw attempt (by omega)
    cases hh : r.retryAfterHeader with
    | none =>
      rw [hh] at hval
      simp only [retryAfterVal, Option.some.injEq] at hval
      conv_lhs => rw [RentAHumanClient.requestGo]
      simp [hwa, h429, hh, hlt, hrec, hval, List.range']
    | some s =>
      rw [hh] at hval
      simp only [retryAfterVal] at hval
      conv_lhs => rw [RentAHumanClient.requestGo]
      simp [hwa, h429, hh, hval, hlt, hrec, List.range']

/-! ## Claim theorems -/

/-- Counterexample to C9 as stated: on a 200 response with empty content
(`max_retries = 1`) the two executors disagree in every observable — the
sync client's `resp.json()` raises `requests.JSONDecodeError`, a
`RequestException`, so it backs off 0.5 s, retries, and wraps the failure
after two requests, while the async client's stdlib `json.JSONDecodeError`
is not an `httpx.HTTPError` and escapes uncaught after one request with no
wait. -/
theorem sync_async_empty_body_counterexample :
    RentAHumanClient.request 1 emptyOkWorld =
      ⟨.error (.str ("Request failed: " ++ emptyJsonErr)) none, 2,
        [mkRat 1 2]⟩ ∧
    AsyncRentAHumanClient.request 1 emptyOkWorld =
      ⟨.uncaught emptyJsonErr, 1, []⟩ ∧
    AsyncRentAHumanClient.request 1 emptyOkWorld ≠
      RentAHumanClient.request 1 emptyOkWorld := by
  have h1 : RentAHumanClient.request 1 emptyOkWorld =
      ⟨.error (.str ("Request failed: " ++ emptyJsonErr)) none, 2,
        [mkRat 1 2]⟩ := rfl
  have h2 : AsyncRentAHumanClient.request 1 emptyOkWorld =
      ⟨.uncaught emptyJsonErr, 1, []⟩ := rfl
  refine ⟨h1, h2, fun h => ?_⟩
  rw [h1, h2] at h
  simp at h

/-- Claim C9 (amended): on every configuration and every sequence of
attempt outcomes in which each parsed body decodes as JSON (transport
failures, 429s, error responses without undecodable content, successes
with JSON object bodies), the async request executor produces exactly the
trace of the sync one — the same result, the same number of requests, and
the same wait durations.  On a response whose body fails to decode the two
diverge: the sync client treats the `JSONDecodeError` as a caught
transport failure (backoff, retry, wrapped error), the async client lets
it escape uncaught. -/
theorem sync_async_request_agree (maxRetries : Nat) (world : Nat → Outcome)
    (hsafe : ∀ k, decodeSafe (world k) = true) :
    AsyncRentAHumanClient.request maxRetries world =
      RentAHumanClient.request maxRetries world :=
  requestGo_sync_async_eq maxRetries world hsafe (maxRetries + 1) 0

/-- Witness for C9 (amended): the two executors produce the identical
trace on a decode-safe run, here a single 429 without a header at
`max_retries = 0`. -/
theorem sync_async_request_agree_witness :
    AsyncRentAHumanClient.request 0 (rateLimitWorld none) =
      RentAHumanClient.request 0 (rateLimitWorld none) :=
  sync_async_request_agree 0 (rateLimitWorld none) (fun _ => rfl)

/-- Counterexample to C2 as stated: on a 429 response whose `Retry-After`
header is present but unparseable (here `"soon"`, with `max_retries = 0`),
the executor does not fall back to the 1.0-second default — the `float`
call raises an uncaught `ValueError`, so the operation fails with neither
a retry nor a `RateLimitError`. -/
theorem retry_after_unparseable_counterexample :
    (RentAHumanClient.request 0 (rateLimitWorld (some "soon"))).result =
      .uncaught "could not convert string to float: 'soon'" ∧
    ((RentAHumanClient.request 0 (rateLimitWorld (some "soon"))).result).isRateLimit
      = false ∧
    (RentAHumanClient.request 0 (rateLimitWorld (some "soon"))).result ≠
      .rateLimitError 1 := by
  have h1 : (RentAHumanClient.request 0 (rateLimitWorld (some "soon"))).result =
      .uncaught "could not convert string to float: 'soon'" := rfl
  exact ⟨h1, rfl, fun h => ReqResult.noConfusion (h1.symm.trans h)⟩

/-- Claim C2 (amended): on a 429 response the `Retry-After` header is read
as seconds, defaulting to 1.0 only when the header is absent; a present
value is parsed with Python `float`, and an unparseable value raises an
uncaught `ValueError` (no default, no retry).  When the value is obtained
and attempts remain the executor waits that duration and retries; when
attempts are exhausted it fails with a `RateLimitError` carrying the last
retry-after value. -/
theorem rate_limit_retry_policy (maxRetries : Nat) (world : Nat → Outcome)
    (hv : Nat → ℚ) :
    retryAfterVal none = some 1 ∧
    (∀ s, retryAfterVal (some s) = pyFloat? s) ∧
    (∀ attempt rem r q, world attempt = .resp r → r.status = 429 →
      retryAfterVal r.retryAfterHeader = some q → attempt < maxRetries →
      RentAHumanClient.requestGo maxRetries world attempt (rem + 1) =
        ⟨(RentAHumanClient.requestGo maxRetries world (attempt + 1) rem).result,
         (RentAHumanClient.requestGo maxRetries world (attempt + 1) rem).requests
           + 1,
         q :: (RentAHumanClient.requestGo maxRetries world (attempt + 1)
           rem).waits⟩) ∧
    (∀ attempt rem r q, world attempt = .resp r → r.status = 429 →
      retryAfterVal r.retryAfterHeader = some q → maxRetries ≤ attempt →
      RentAHumanClient.requestGo maxRetries world attempt (rem + 1) =
        ⟨.rateLimitError q, 1, []⟩) ∧
    (∀ attempt rem r s, world attempt = .resp r → r.status = 429 →
      r.retryAfterHeader = some s → pyFloat? s = none →
      RentAHumanClient.requestGo maxRetries world attempt (rem + 1) =
        ⟨.uncaught (floatErrMsg s), 1, []⟩) ∧
    ((∀ k, k ≤ maxRetries → ∃ r, world k = .resp r ∧ r.status = 429 ∧
        retryAfterVal r.retryAfterHeader = some (hv k)) →
      RentAHumanClient.request maxRetries world =
        ⟨.rateLimitError (hv maxRetries), maxRetries + 1,
          (List.range maxRetries).map hv⟩) := by
  refine ⟨rfl, fun s => rfl, ?_, ?_, ?_, ?_⟩
  · intro attempt rem r q hw h429 hval hlt
    cases hh : r.retryAfterHeader with
    | none =>
      rw [hh] at hval
      simp only [retryAfterVal, Option.some.injEq] at hval
      subst hval
      conv_lhs => rw [RentAHumanClient.requestGo]
      simp [hw, h429, hh, hlt]
    | some s =>
      rw [hh] at hval
      simp only [retryAfterVal] at hval
      conv_lhs => rw [RentAHumanClient.requestGo]
      simp [hw, h429, hh, hval, hlt]
  · intro attempt rem r q hw h429 hval hge
    cases hh : r.retryAfterHeader with
    | none =>
      rw [hh] at hval
      simp only [retryAfterVal, Option.some.injEq] at hval
      subst hval
      conv_lhs => rw [RentAHumanClient.requestGo]
      simp [hw, h429, hh, Nat.not_lt.mpr hge]
    | some s =>
      rw [hh] at hval
      simp only [retryAfterVal] at hval
      conv_lhs => rw [RentAHumanClient.requestGo]
      simp [hw, h429, hh, hval, Nat.not_lt.mpr hge]
  · intro attempt rem r s hw h429 hh hs
    conv_lhs => rw [RentAHumanClient.requestGo]
    simp [hw, h429, hh, hs]
  · intro hall
    have h := requestGo_rateLimited_all maxRetries world hv hall maxRetries 0
      (by omega)
    rw [List.range_eq_range']
    exact h

/-- Witness for C2 (amended): with `max_retries = 1` and two 429 responses
carrying `Retry-After: 0.01`, the executor waits 0.01 s once and then
fails with `RateLimitError(0.01)` after two requests. -/
theorem rate_limit_retry_policy_witness :
    RentAHumanClient.request 1 (rateLimitWorld (some "0.01")) =
      ⟨.rateLimitError (mkRat 1 100), 2, [mkRat 1 100]⟩ :=
  (rate_limit_retry_policy 1 (rateLimitWorld (some "0.01"))
      (fun _ => mkRat 1 100)).2.2.2.2.2 (fun _ _ => ⟨_, rfl, rfl, rfl⟩)

/-- Claim C3: a response with status ≥ 400 other than 429 whose content
decodes (`body = resp.json() if resp.content else {}`), at any attempt,
makes the executor fail at once — one request, no wait, no retry — with a
`RentAHumanError` carrying the response's status code and, as message, the
body's `error` field when present, else the reason phrase when non-empty,
else `"HTTP {code}"`.  An error response whose non-empty content does not
decode instead raises `requests.JSONDecodeError`, which the except clause
treats as a transport failure (final two conjuncts). -/
theorem http_error_fails_immediately (maxRetries : Nat)
    (world : Nat → Outcome) (attempt rem : Nat) (r : HttpResponse)
    (hw : world attempt = .resp r) (h400 : 400 ≤ r.status)
    (h429 : r.status ≠ 429) :
    (∀ o e, r.body.decoded? = some o → o.lookup "error" = some e →
      RentAHumanClient.requestGo maxRetries world attempt (rem + 1) =
        ⟨.error e (some r.status), 1, []⟩) ∧
    (∀ o, r.body.decoded? = some o → o.lookup "error" = none →
      r.reason ≠ "" →
      RentAHumanClient.requestGo maxRetries world attempt (rem + 1) =
        ⟨.error (.str r.reason) (some r.status), 1, []⟩) ∧
    (∀ o, r.body.decoded? = some o → o.lookup "error" = none →
      r.reason = "" →
      RentAHumanClient.requestGo maxRetries world attempt (rem + 1) =
        ⟨.error (.str ("HTTP " ++ toString r.status)) (some r.status), 1,
          []⟩) ∧
    (∀ msg, r.body = .malformed msg → maxRetries ≤ attempt →
      RentAHumanClient.requestGo maxRetries world attempt (rem + 1) =
        ⟨.error (.str ("Request failed: " ++ msg)) none, 1, []⟩) ∧
    (∀ msg, r.body = .malformed msg → attempt < maxRetries →
      RentAHumanClient.requestGo maxRetries world attempt (rem + 1) =
        ⟨(RentAHumanClient.requestGo maxRetries world (attempt + 1) rem).result,
         (RentAHumanClient.requestGo maxRetries world (attempt + 1) rem).requests
           + 1,
         mkRat (attempt + 1) 2 ::
           (RentAHumanClient.requestGo maxRetries world (attempt + 1)
             rem).waits⟩) := by
  refine ⟨?_, ?_, ?_, ?_, ?_⟩
  · intro o e hdec he
    cases hb : r.body with
    | noContent =>
      rw [hb] at hdec
      simp only [Body.decoded?, Option.some.injEq] at hdec
      subst hdec
      simp [List.lookup] at he
    | malformed msg =>
      rw [hb] at hdec
      simp [Body.decoded?] at hdec
    | json o2 =>
      rw [hb] at hdec
      simp only [Body.decoded?, Option.some.injEq] at hdec
      subst hdec
      conv_lhs => rw [RentAHumanClient.requestGo]
      simp [hw, h429, h400, hb, he]
  · intro o hdec he hr
    cases hb : r.body with
    | noContent =>
      rw [hb] at hdec
      simp only [Body.decoded?, Option.some.injEq] at hdec
      subst hdec
      conv_lhs => rw [RentAHumanClient.requestGo]
      simp [hw, h429, h400, hb, hr]
    | malformed msg =>
      rw [hb] at hdec
      simp [Body.decoded?] at hdec
    | json o2 =>
      rw [hb] at hdec
      simp only [Body.decoded?, Option.some.injEq] at hdec
      subst hdec
      conv_lhs => rw [RentAHumanClient.requestGo]
      simp [hw, h429, h400, hb, he, hr]
  · intro o hdec he hr
    cases hb : r.body with
    | noContent =>
      rw [hb] at hdec
      simp only [Body.decoded?, Option.some.injEq] at hdec
      subst hdec
      conv_lhs => rw [RentAHumanClient.requestGo]
      simp [hw, h429, h400, hb, hr]
    | malformed msg =>
      rw [hb] at hdec
      simp [Body.decoded?] at hdec
    | json o2 =>
      rw [hb] at hdec
      simp only [Body.decoded?, Option.some.injEq] at hdec
      subst hdec
      conv_lhs => rw [RentAHumanClient.requestGo]
      simp [hw, h429, h400, hb, he, hr]
  · intro msg hb hge
    conv_lhs => rw [RentAHumanClient.requestGo]
    simp [hw, h429, h400, hb, Nat.not_lt.mpr hge]
  · intro msg hb hlt
    conv_lhs => rw [RentAHumanClient.requestGo]
    simp [hw, h429, h400, hb, hlt]

/-- Witness for C3: a 404 with body `{"error": "Human not found"}` fails
immediately with that message and status 404 after one request. -/
theorem http_error_fails_immediately_witness :
    RentAHumanClient.requestGo 3 notFoundWorld 0 3 =
      ⟨.error (.str "Human not found") (some 404), 1, []⟩ :=
  (http_error_fails_immediately 3 notFoundWorld 0 2
      ⟨404, none, "Not Found",
        .json [("success", .bool false), ("error", .str "Human not found")]⟩
      rfl (by decide) (by decide)).1
    [("success", .bool false), ("error", .str "Human not found")]
    (.str "Human not found") rfl rfl

/-- Claim C4: a transport-level failure on attempt `n` is retried after a
linear backoff of `0.5 * (n + 1)` seconds while attempts remain, and
otherwise fails with a wrapped transport error; a run whose every attempt
fails at the transport level performs `max_retries + 1` requests with
waits 0.5 s, 1.0 s, …; and every run issues at most `max_retries + 1`
requests. -/
theorem transport_failure_backoff_and_bound (maxRetries : Nat)
    (world : Nat → Outcome) (em : Nat → String) :
    (∀ attempt rem e, world attempt = .transErr e → attempt < maxRetries →
      RentAHumanClient.requestGo maxRetries world attempt (rem + 1) =
        ⟨(RentAHumanClient.requestGo maxRetries world (attempt + 1) rem).result,
         (RentAHumanClient.requestGo maxRetries world (attempt + 1) rem).requests
           + 1,
         mkRat (attempt + 1) 2 ::
           (RentAHumanClient.requestGo maxRetries world (attempt + 1)
             rem).waits⟩) ∧
    (∀ attempt rem e, world attempt = .transErr e → maxRetries ≤ attempt →
      RentAHumanClient.requestGo maxRetries world attempt (rem + 1) =
        ⟨.error (.str ("Request failed: " ++ e)) none, 1, []⟩) ∧
    ((∀ k, k ≤ maxRetries → world k = .transErr (em k)) →
      RentAHumanClient.request maxRetries world =
        ⟨.error (.str ("Request failed: " ++ em maxRetries)) none,
          maxRetries + 1,
          (List.range' 1 maxRetries).map (fun k => mkRat k 2)⟩) ∧
    (RentAHumanClient.request maxRetries world).requests ≤ maxRetries + 1 := by
  refine ⟨?_, ?_, ?_, requestGo_requests_le maxRetries world (maxRetries + 1) 0⟩
  · intro attempt rem e hw hlt
    conv_lhs => rw [RentAHumanClient.requestGo]
    simp [hw, hlt]
  · intro attempt rem e hw hge
    conv_lhs => rw [RentAHumanClient.requestGo]
    simp [hw, Nat.not_lt.mpr hge]
  · intro hall
    exact requestGo_transport_all maxRetries world em hall maxRetries 0
      (by omega)

/-- Witness for C4: with `max_retries = 1` and a dead server, the executor
waits 0.5 s once and fails with the wrapped transport error after two
requests. -/
theorem transport_failure_backoff_and_bound_witness :
    RentAHumanClient.request 1 (downWorld "boom") =
      ⟨.error (.str "Request failed: boom") none, 2, [mkRat 1 2]⟩ :=
  (transport_failure_backoff_and_bound 1 (downWorld "boom")
      (fun _ => "boom")).2.2.1 (fun _ _ => rfl)

/-- Counterexample to C5 as stated: with `max_retries = 0`, a single 429
whose `Retry-After` header is unparseable (`"fast"`) does not produce a
`RateLimitError` — the `float` call raises an uncaught `ValueError`. -/
theorem no_retry_unparseable_counterexample :
    (RentAHumanClient.request 0 (rateLimitWorld (some "fast"))).result =
      .uncaught "could not convert string to float: 'fast'" ∧
    ((RentAHumanClient.request 0 (rateLimitWorld (some "fast"))).result).isRateLimit
      = false :=
  ⟨rfl, rfl⟩

/-- Claim C5 (amended): with `max_retries = 0`, a single 429 response whose
`Retry-After` header is absent or parses as a float fails immediately with
a `RateLimitError` carrying that value (1.0 when absent), with no wait and
exactly one request; a 429 whose header is unparseable instead raises the
`float` `ValueError` uncaught (still one request, no wait). -/
theorem no_retry_single_429 (world : Nat → Outcome) :
    (∀ r q, world 0 = .resp r → r.status = 429 →
      retryAfterVal r.retryAfterHeader = some q →
      RentAHumanClient.request 0 world = ⟨.rateLimitError q, 1, []⟩) ∧
    (∀ r s, world 0 = .resp r → r.status = 429 →
      r.retryAfterHeader = some s → pyFloat? s = none →
      RentAHumanClient.request 0 world =
        ⟨.uncaught (floatErrMsg s), 1, []⟩) := by
  have h0 : RentAHumanClient.request 0 world =
      RentAHumanClient.requestGo 0 world 0 1 := rfl
  constructor
  · intro r q hw h429 hval
    rw [h0]
    cases hh : r.retryAfterHeader with
    | none =>
      rw [hh] at hval
      simp only [retryAfterVal, Option.some.injEq] at hval
      subst hval
      conv_lhs => rw [RentAHumanClient.requestGo]
      simp [hw, h429, hh, Nat.lt_irrefl]
    | some s =>
      rw [hh] at hval
      simp only [retryAfterVal] at hval
      conv_lhs => rw [RentAHumanClient.requestGo]
      simp [hw, h429, hh, hval, Nat.lt_irrefl]
  · intro r s hw h429 hh hs
    rw [h0]
    conv_lhs => rw [RentAHumanClient.requestGo]
    simp [hw, h429, hh, hs]

/-- Witness for C5 (amended): `max_retries = 0`, one 429 without a
`Retry-After` header: immediate `RateLimitError(1.0)`, one request, no
wait. -/
theorem no_retry_single_429_witness :
    RentAHumanClient.request 0 (rateLimitWorld none) =
      ⟨.rateLimitError 1, 1, []⟩ :=
  (no_retry_single_429 (rateLimitWorld none)).1
    ⟨429, none, "Too Many Requests", .noContent⟩ 1 rfl rfl rfl

/-- An `optMapM` succeeds when every element does. -/
theorem optMapM_isSome {α β : Type} (g : α → Option β) :
    ∀ l : List α, (∀ a ∈ l, (g a).isSome) → ∃ ys, optMapM g l = some ys := by
  intro l
  induction l with
  | nil => exact fun _ => ⟨[], rfl⟩
  | cons a l ih =>
    intro h
    obtain ⟨b, hb⟩ := Option.isSome_iff_exists.mp (h a (List.mem_cons_self a l))
    obtain ⟨ys, hys⟩ := ih fun x hx => h x (List.mem_cons_of_mem a hx)
    exact ⟨b :: ys, by simp [optMapM, hb, hys]⟩

/-- Counterexample to C7 as stated: constructing a `Booking` from a wire
payload keyed by the internal (non-aliased) field names succeeds (via
`populate_by_name`), but re-serializing with the external (aliased) names
yields the aliased keys, not the original payload's keys. -/
theorem alias_roundtrip_internal_keys_counterexample :
    ((modelValidateObj bookingFields bookingInternalPayload).map
        (fun e => (modelDumpByAlias bookingFields e).map Prod.fst)) =
      some ["id", "humanId", "agentId", "taskTitle", "status", "startTime",
        "estimatedHours", "createdAt"] ∧
    (["id", "humanId", "agentId", "taskTitle", "status", "startTime",
        "estimatedHours", "createdAt"] : List String) ≠
      bookingInternalPayload.map Prod.fst := by
  exact ⟨rfl, by decide⟩

/-- Claim C7 (amended): for every entity model, constructing the entity
from a wire payload keyed by the external (aliased) field names — one
shape-valid entry per declared field — succeeds, and re-serializing with
the aliased names reproduces the original payload's keys.  (A payload
keyed by the internal names is also accepted, but re-serializes to the
aliased keys, per the counterexample.) -/
theorem alias_roundtrip_keys :
    ∀ fields ∈ entityFieldTables, ∀ payload : JsonObj,
      payload.map Prod.fst = fields.map ModelField.wireAlias →
      (∀ f ∈ fields, ∃ v, payload.lookup f.wireAlias = some v ∧
        checkKind f.kind v = true) →
      ((modelValidateObj fields payload).map
          (fun e => (modelDumpByAlias fields e).map Prod.fst)) =
        some (payload.map Prod.fst) := by
  intro fields _ payload hkeys hvals
  have hsome : ∀ f ∈ fields, (validateField payload f).isSome := by
    intro f hf
    obtain ⟨v, hv, hchk⟩ := hvals f hf
    simp [validateField, lookupWithAlias, hv, hchk]
  obtain ⟨e, he⟩ := optMapM_isSome (validateField payload) fields hsome
  have hval : modelValidateObj fields payload = some e := he
  rw [hval, Option.map_some']
  rw [hkeys]
  simp [modelDumpByAlias, List.map_map, Function.comp]

/-- Witness for C7 (amended): a full aliased `Booking` payload validates
and dumps back to exactly its own keys. -/
theorem alias_roundtrip_keys_witness :
    ((modelValidateObj bookingFields bookingWirePayload).map
        (fun e => (modelDumpByAlias bookingFields e).map Prod.fst)) =
      some (bookingWirePayload.map Prod.fst) :=
  alias_roundtrip_keys bookingFields (by simp [entityFieldTables])
    bookingWirePayload rfl
    (by
      intro f hf
      simp only [bookingFields, List.mem_cons, List.not_mem_nil,
        or_false] at hf
      rcases hf with rfl | rfl | rfl | rfl | rfl | rfl | rfl | rfl <;>
        exact ⟨_, rfl, rfl⟩)

/-- A server that always answers 200 delivers the parsed body in one
request. -/
theorem request_okWorld (maxRetries : Nat) (body : JsonObj) :
    RentAHumanClient.request maxRetries (okWorld body) = ⟨.ok body, 1, []⟩ :=
  requestGo_success maxRetries (okWorld body) 0 maxRetries
    ⟨200, none, "OK", .json body⟩ body rfl (show (200 : Nat) ≠ 429 by decide)
    (show (200 : Nat) < 400 by decide) rfl

/-- Mapping `Skill(name=s)` over a list of JSON strings. -/
theorem optMapM_skillOfName :
    ∀ ss : List String,
      optMapM (fun j => match j with
        | Json.str s => some (skillOfName s)
        | _ => none) (ss.map Json.str) = some (ss.map skillOfName) := by
  intro ss
  induction ss with
  | nil => rfl
  | cons s ss ih => simp [optMapM, ih]

/-- Claim C8: every single-entity operation (`get_human`, `get_booking`,
`get_bounty`, `update_bounty`, `send_message`, `get_conversation`) unwraps
its named envelope key first and falls back to the whole body when the key
is absent; `list_skills` returns `Skill` values both for a body of bare
strings and for a body of objects; and the async `list_skills` behaves
identically on decode-safe runs. -/
theorem envelope_unwrap_fallback :
    (∀ m i body j e, invalidParam i = false → body.lookup "human" = some j →
      modelValidate humanFields j = some e →
      RentAHumanClient.getHuman m i (okWorld body) = (.ok e, 1)) ∧
    (∀ m i body e, invalidParam i = false → body.lookup "human" = none →
      modelValidateObj humanFields body = some e →
      RentAHumanClient.getHuman m i (okWorld body) = (.ok e, 1)) ∧
    (∀ m i body j e, invalidParam i = false → body.lookup "booking" = some j →
      modelValidate bookingFields j = some e →
      RentAHumanClient.getBooking m i (okWorld body) = (.ok e, 1)) ∧
    (∀ m i body e, invalidParam i = false → body.lookup "booking" = none →
      modelValidateObj bookingFields body = some e →
      RentAHumanClient.getBooking m i (okWorld body) = (.ok e, 1)) ∧
    (∀ m i body j e, invalidParam i = false → body.lookup "bounty" = some j →
      modelValidate bountyFields j = some e →
      RentAHumanClient.getBounty m i (okWorld body) = (.ok e, 1)) ∧
    (∀ m i body e, invalidParam i = false → body.lookup "bounty" = none →
      modelValidateObj bountyFields body = some e →
      RentAHumanClient.getBounty m i (okWorld body) = (.ok e, 1)) ∧
    (∀ m i u body j e, invalidParam i = false →
      body.lookup "bounty" = some j → modelValidate bountyFields j = some e →
      RentAHumanClient.updateBounty m i u (okWorld body) = (.ok e, 1)) ∧
    (∀ m i u body e, invalidParam i = false → body.lookup "bounty" = none →
      modelValidateObj bountyFields body = some e →
      RentAHumanClient.updateBounty m i u (okWorld body) = (.ok e, 1)) ∧
    (∀ m i msg body j e, invalidParam i = false →
      body.lookup "message" = some j → modelValidate messageFields j = some e →
      RentAHumanClient.sendMessage m i msg (okWorld body) = (.ok e, 1)) ∧
    (∀ m i msg body e, invalidParam i = false →
      body.lookup "message" = none →
      modelValidateObj messageFields body = some e →
      RentAHumanClient.sendMessage m i msg (okWorld body) = (.ok e, 1)) ∧
    (∀ m i body j e, invalidParam i = false →
      body.lookup "conversation" = some j →
      modelValidate conversationFields j = some e →
      RentAHumanClient.getConversation m i (okWorld body) = (.ok e, 1)) ∧
    (∀ m i body e, invalidParam i = false →
      body.lookup "conversation" = none →
      modelValidateObj conversationFields body = some e →
      RentAHumanClient.getConversation m i (okWorld body) = (.ok e, 1)) ∧
    (∀ (m : Nat) (ss : List String), RentAHumanClient.listSkills m
        (okWorld [("skills", .arr (ss.map Json.str))]) =
      (.ok (ss.map skillOfName), 1)) ∧
    (∀ (m : Nat) (xs : List Json) (es : List JsonObj),
      (∀ x ∈ xs, ∃ kvs, x = Json.obj kvs) →
      optMapM (modelValidate skillFields) xs = some es →
      RentAHumanClient.listSkills m (okWorld [("skills", .arr xs)]) =
        (.ok es, 1)) ∧
    (∀ m w, (∀ k, decodeSafe (w k) = true) →
      AsyncRentAHumanClient.listSkills m w =
        RentAHumanClient.listSkills m w) := by
  refine ⟨?_, ?_, ?_, ?_, ?_, ?_, ?_, ?_, ?_, ?_, ?_, ?_, ?_, ?_, ?_⟩
  · intro m i body j e hi hj he
    simp [RentAHumanClient.getHuman, RentAHumanClient.sanitizePathParam, hi,
      request_okWorld, opOfTrace, hj, he, parsedOp]
  · intro m i body e hi hj he
    simp [RentAHumanClient.getHuman, RentAHumanClient.sanitizePathParam, hi,
      request_okWorld, opOfTrace, hj, modelValidate, he, parsedOp]
  · intro m i body j e hi hj he
    simp [RentAHumanClient.getBooking, RentAHumanClient.sanitizePathParam, hi,
      request_okWorld, opOfTrace, hj, he, parsedOp]
  · intro m i body e hi hj he
    simp [RentAHumanClient.getBooking, RentAHumanClient.sanitizePathParam, hi,
      request_okWorld, opOfTrace, hj, modelValidate, he, parsedOp]
  · intro m i body j e hi hj he
    simp [RentAHumanClient.getBounty, RentAHumanClient.sanitizePathParam, hi,
      request_okWorld, opOfTrace, hj, he, parsedOp]
  · intro m i body e hi hj he
    simp [RentAHumanClient.getBounty, RentAHumanClient.sanitizePathParam, hi,
      request_okWorld, opOfTrace, hj, modelValidate, he, parsedOp]
  · intro m i u body j e hi hj he
    simp [RentAHumanClient.updateBounty, RentAHumanClient.sanitizePathParam,
      hi, request_okWorld, opOfTrace, hj, he, parsedOp]
  · intro m i u body e hi hj he
    simp [RentAHumanClient.updateBounty, RentAHumanClient.sanitizePathParam,
      hi, request_okWorld, opOfTrace, hj, modelValidate, he, parsedOp]
  · intro m i msg body j e hi hj he
    simp [RentAHumanClient.sendMessage, RentAHumanClient.sanitizePathParam,
      hi, request_okWorld, opOfTrace, hj, he, parsedOp]
  · intro m i msg body e hi hj he
    simp [RentAHumanClient.sendMessage, RentAHumanClient.sanitizePathParam,
      hi, request_okWorld, opOfTrace, hj, modelValidate, he, parsedOp]
  · intro m i body j e hi hj he
    simp [RentAHumanClient.getConversation,
      RentAHumanClient.sanitizePathParam, hi, request_okWorld, opOfTrace, hj,
      he, parsedOp]
  · intro m i body e hi hj he
    simp [RentAHumanClient.getConversation,
      RentAHumanClient.sanitizePathParam, hi, request_okWorld, opOfTrace, hj,
      modelValidate, he, parsedOp]
  · intro m ss
    simp only [RentAHumanClient.listSkills, request_okWorld, opOfTrace]
    cases ss with
    | nil => rfl
    | cons s ss =>
      have h := optMapM_skillOfName (s :: ss)
      simp only [List.map_cons] at h
      simp [listSkillsParse, truthy, subscript0, pyIterate, parsedOp,
        List.lookup, h]
  · intro m xs es hobj hmap
    simp only [RentAHumanClient.listSkills, request_okWorld, opOfTrace]
    cases xs with
    | nil =>
      simp only [optMapM, Option.some.injEq] at hmap
      subst hmap
      rfl
    | cons x xs =>
      obtain ⟨kvs, rfl⟩ := hobj x (List.mem_cons_self x xs)
      simp [listSkillsParse, truthy, subscript0, pyIterate, hmap, parsedOp,
        List.lookup]
  · intro m w hsafe
    simp [RentAHumanClient.listSkills, AsyncRentAHumanClient.listSkills,
      RentAHumanClient.request, AsyncRentAHumanClient.request,
      requestGo_sync_async_eq m w hsafe]

/-- Witness for C8: `get_human` on a body `{"human": {}}` parses the
enveloped object into an all-defaults `Human`, `get_booking` on a body
`{"booking": {...}}` parses the enveloped wire payload into the
internally-keyed entity, and `list_skills` on
`{"skills": ["Packages", "Photography"]}` yields two `Skill` values. -/
theorem envelope_unwrap_fallback_witness :
    RentAHumanClient.getHuman 3 "h1" (okWorld [("human", .obj [])]) =
      (.ok [("id", Json.str ""), ("name", .str ""), ("location", .null),
        ("rate", .null), ("skills", .arr []), ("bio", .null),
        ("availability", .null), ("crypto_wallets", .arr []),
        ("rating", .null), ("completed_tasks", .null),
        ("created_at", .null)], 1) ∧
    RentAHumanClient.getBooking 3 "booking_001"
        (okWorld [("booking", .obj bookingWirePayload)]) =
      (.ok bookingInternalPayload, 1) ∧
    RentAHumanClient.listSkills 2
        (okWorld [("skills", .arr [Json.str "Packages",
          Json.str "Photography"])]) =
      (.ok [skillOfName "Packages", skillOfName "Photography"], 1) :=
  ⟨envelope_unwrap_fallback.1 3 "h1" [("human", .obj [])] (.obj [])
      [("id", Json.str ""), ("name", .str ""), ("location", .null),
       ("rate", .null), ("skills", .arr []), ("bio", .null),
       ("availability", .null), ("crypto_wallets", .arr []),
       ("rating", .null), ("completed_tasks", .null), ("created_at", .null)]
      rfl rfl rfl,
   envelope_unwrap_fallback.2.2.1 3 "booking_001"
      [("booking", .obj bookingWirePayload)] (.obj bookingWirePayload)
      bookingInternalPayload rfl rfl rfl,
   envelope_unwrap_fallback.2.2.2.2.2.2.2.2.2.2.2.2.1 2
      ["Packages", "Photography"]⟩

/-- Claim C6: for every integer passed as `search_humans`'s `limit`, the
transmitted query value is clamped to [1, 500] — inputs above 500 are sent
as 500, inputs below 1 are sent as 1, and in-range values are sent
unchanged — in both the sync and the async client. -/
theorem search_limit_clamped (skill : Option String)
    (minRate maxRate : Option ℚ) (name : Option String) (limit offset : Int) :
    (RentAHumanClient.searchHumansParams skill minRate maxRate name limit
        offset).lookup "limit" =
      some (.num ((if 500 < limit then 500
                   else if limit < 1 then 1 else limit : Int) : ℚ)) ∧
    (AsyncRentAHumanClient.searchHumansParams skill minRate maxRate name limit
        offset).lookup "limit" =
      some (.num ((if 500 < limit then 500
                   else if limit < 1 then 1 else limit : Int) : ℚ)) := by
  have h : (max 1 (min limit 500) : Int) =
      if 500 < limit then 500 else if limit < 1 then 1 else limit := by
    split_ifs <;> omega
  constructor <;>
    simp [RentAHumanClient.searchHumansParams,
      AsyncRentAHumanClient.searchHumansParams, List.lookup, h]

/-- Claim C10: the `limit` parameter of `list_bookings`, `list_bounties`
and `list_conversations` is transmitted exactly as given, with no clamping,
in both clients. -/
theorem list_limit_not_clamped (humanId agentId status : Option String)
    (limit : Int) :
    (RentAHumanClient.listBookingsParams humanId agentId status
        limit).lookup "limit" = some (.num (limit : ℚ)) ∧
    (RentAHumanClient.listBountiesParams limit).lookup "limit" =
      some (.num (limit : ℚ)) ∧
    (RentAHumanClient.listConversationsParams limit).lookup "limit" =
      some (.num (limit : ℚ)) ∧
    (AsyncRentAHumanClient.listBookingsParams humanId agentId status
        limit).lookup "limit" = some (.num (limit : ℚ)) ∧
    (AsyncRentAHumanClient.listBountiesParams limit).lookup "limit" =
      some (.num (limit : ℚ)) ∧
    (AsyncRentAHumanClient.listConversationsParams limit).lookup "limit" =
      some (.num (limit : ℚ)) := by
  refine ⟨?_, ?_, ?_, ?_, ?_, ?_⟩ <;>
    simp [RentAHumanClient.listBookingsParams,
      RentAHumanClient.listBountiesParams,
      RentAHumanClient.listConversationsParams,
      AsyncRentAHumanClient.listBookingsParams,
      AsyncRentAHumanClient.listBountiesParams,
      AsyncRentAHumanClient.listConversationsParams, List.lookup]

/-- Claim C1: every operation that interpolates a caller-supplied
identifier into the URL path (`get_human`, `get_reviews`, `get_booking`,
`get_bounty`, `get_bounty_applications`, `accept_application`,
`update_bounty`, `send_message`, `get_conversation`) rejects an identifier
that is empty or contains `/`, `\`, or `..` with a client-side
`RentAHumanError` (the spec's `ValidationError`) and issues zero HTTP
requests; the async sanitizer is the same predicate. -/
theorem sanitized_ops_fail_before_network :
    (∀ m i w, invalidParam i = true →
      RentAHumanClient.getHuman m i w =
        (.error (.str ("Invalid path parameter: " ++ pyRepr i)) none, 0)) ∧
    (∀ m i w, invalidParam i = true →
      RentAHumanClient.getReviews m i w =
        (.error (.str ("Invalid path parameter: " ++ pyRepr i)) none, 0)) ∧
    (∀ m i w, invalidParam i = true →
      RentAHumanClient.getBooking m i w =
        (.error (.str ("Invalid path parameter: " ++ pyRepr i)) none, 0)) ∧
    (∀ m i w, invalidParam i = true →
      RentAHumanClient.getBounty m i w =
        (.error (.str ("Invalid path parameter: " ++ pyRepr i)) none, 0)) ∧
    (∀ m i w, invalidParam i = true →
      RentAHumanClient.getBountyApplications m i w =
        (.error (.str ("Invalid path parameter: " ++ pyRepr i)) none, 0)) ∧
    (∀ m i a w, invalidParam i = true →
      RentAHumanClient.acceptApplication m i a w =
        (.error (.str ("Invalid path parameter: " ++ pyRepr i)) none, 0)) ∧
    (∀ m i a w, invalidParam i = false → invalidParam a = true →
      RentAHumanClient.acceptApplication m i a w =
        (.error (.str ("Invalid path parameter: " ++ pyRepr a)) none, 0)) ∧
    (∀ m i u w, invalidParam i = true →
      RentAHumanClient.updateBounty m i u w =
        (.error (.str ("Invalid path parameter: " ++ pyRepr i)) none, 0)) ∧
    (∀ m i s w, invalidParam i = true →
      RentAHumanClient.sendMessage m i s w =
        (.error (.str ("Invalid path parameter: " ++ pyRepr i)) none, 0)) ∧
    (∀ m i w, invalidParam i = true →
      RentAHumanClient.getConversation m i w =
        (.error (.str ("Invalid path parameter: " ++ pyRepr i)) none, 0)) ∧
    (∀ v, AsyncRentAHumanClient.sanitizePathParam v =
      RentAHumanClient.sanitizePathParam v) := by
  refine ⟨?_, ?_, ?_, ?_, ?_, ?_, ?_, ?_, ?_, ?_, fun v => rfl⟩ <;>
    intros <;>
    simp_all [RentAHumanClient.getHuman, RentAHumanClient.getReviews,
      RentAHumanClient.getBooking, RentAHumanClient.getBounty,
      RentAHumanClient.getBountyApplications,
      RentAHumanClient.acceptApplication, RentAHumanClient.updateBounty,
      RentAHumanClient.sendMessage, RentAHumanClient.getConversation,
      RentAHumanClient.sanitizePathParam]

/-- Witness for C1: `get_human("../etc/passwd")` and
`accept_application("ok", "..")` fail client-side with zero requests. -/
theorem sanitized_ops_fail_before_network_witness :
    RentAHumanClient.getHuman 3 "../etc/passwd"
        (fun _ => .resp ⟨200, none, "OK", .json []⟩) =
      (.error (.str ("Invalid path parameter: " ++ pyRepr "../etc/passwd"))
        none, 0) ∧
    RentAHumanClient.acceptApplication 3 "ok" ".."
        (fun _ => .resp ⟨200, none, "OK", .json []⟩) =
      (.error (.str ("Invalid path parameter: " ++ pyRepr "..")) none, 0) :=
  ⟨sanitized_ops_fail_before_network.1 3 "../etc/passwd" _ (by decide),
   (sanitized_ops_fail_before_network.2.2.2.2.2.2.1) 3 "ok" ".." _
     (by decide) (by decide)⟩

example : pyFloat? "1.0" = some 1 := rfl
example : pyFloat? "0.01" = some (mkRat 1 100) := rfl
example : pyFloat? "soon" = none := rfl
example : pyFloat? "" = none := rfl
example : pyFloat? "-2.5" = some (mkRat (-5) 2) := rfl
example : pyFloat? "7" = some 7 := rfl
example : invalidParam "../etc" = true := by decide
example : invalidParam "human_test_001" = false := by decide
example : invalidParam "a\\b" = true := by rfl
